import Mathlib

/-!
Shallow embedding of `nanostat/NanoStat.py` (NanoStat command-line tool).

The program is thin orchestration:
 - `get_args`: argparse with a required mutually exclusive group
   (--fastq | --summary | --bam), `--readtype` restricted to choices
   {1D, 2D, 1D2}, `--threads` converted with Python `int`,
   defaults outdir ".", prefix "", name "", threads 4, readtype "1D";
 - `main`: guarded `os.makedirs(args.outdir)` when `os.path.exists` is false,
   then `get_input`, then output-path resolution
   (`args.name` if truthy, else `os.path.join(outdir, prefix + "NanoStats.txt")`),
   then `write_stats(datadf, output)`;
 - `get_input`: Python-truthiness dispatch
   `if args.fastq: ... elif args.bam: ... elif args.summary: ...`
   to the external nanoget loaders.

External loaders and the report writer are opaque collaborators: loaders are
modelled as parameters returning `Except`, and the exact call made (which
routine, with which arguments) is recorded in the run trace.
-/

deriving instance DecidableEq for Except

namespace NanoStat

/-- Python truthiness of an optional string option: `None` and `""` are falsy. -/
def truthy : Option String → Bool
  | none => false
  | some s => s != ""

/-- Parsed invocation configuration, mirroring the argparse `Namespace`
produced by `get_args`.  `none` means the option was not supplied on the
command line (argparse default `None` for the data-source group). -/
structure Args where
  fastq : Option String
  summary : Option String
  bam : Option String
  outdir : String
  prefixStr : String
  name : String
  threads : Int
  readtype : String
deriving DecidableEq

/-- Raw command-line option values before argparse validation: for each
recognized option, `none` when absent and `some s` when supplied with raw
string value `s`. -/
structure RawArgs where
  fastq : Option String
  summary : Option String
  bam : Option String
  outdir : Option String
  prefixStr : Option String
  name : Option String
  threads : Option String
  readtype : Option String
deriving DecidableEq

/-- Python `str.strip()` (here on the underlying character list): drop
whitespace from both ends. -/
def stripChars (l : List Char) : List Char :=
  ((l.dropWhile Char.isWhitespace).reverse.dropWhile Char.isWhitespace).reverse

/-- Accumulate the tail of a Python integer literal (ASCII digits, with a
single underscore allowed only between digits), after an initial digit. -/
def digitsGo : Nat → List Char → Option Nat
  | acc, [] => some acc
  | acc, '_' :: c :: cs =>
      if c.isDigit then digitsGo (acc * 10 + (c.toNat - 48)) cs else none
  | acc, c :: cs =>
      if c.isDigit then digitsGo (acc * 10 + (c.toNat - 48)) cs else none

/-- Digit run of a Python integer literal: nonempty, starts with a digit. -/
def parseDigits : List Char → Option Nat
  | [] => none
  | c :: cs => if c.isDigit then digitsGo (c.toNat - 48) cs else none

/-- Python `int(s)` on ASCII input: strip surrounding whitespace, optional
sign, then digits with single underscores between them; anything else fails
with `ValueError` (here `none`). -/
def pyIntParse (s : String) : Option Int :=
  match stripChars s.data with
  | '+' :: rest => (parseDigits rest).map Int.ofNat
  | '-' :: rest => (parseDigits rest).map (fun n => -(Int.ofNat n : Int))
  | rest => (parseDigits rest).map Int.ofNat

/-- Configuration errors argparse reports (each causes `SystemExit(2)` with a
usage message, before `main` does anything else). -/
inductive ArgError where
  | invalidIntValue (s : String)
  | invalidChoice (s : String)
  | mutuallyExclusive
  | oneRequired
deriving DecidableEq

/-- The number of data-source selectors supplied on the command line. -/
def countSupplied (r : RawArgs) : Nat :=
  (if r.fastq.isSome then 1 else 0) +
  (if r.summary.isSome then 1 else 0) +
  (if r.bam.isSome then 1 else 0)

/-- argparse handling of `--threads` (default 4, `type=int`). -/
def parseThreads : Option String → Except ArgError Int
  | none => .ok 4
  | some s =>
      match pyIntParse s with
      | some n => .ok n
      | none => .error (.invalidIntValue s)

/-- argparse handling of `--readtype` (default "1D", choices 1D, 2D, 1D2). -/
def parseReadtype : Option String → Except ArgError String
  | none => .ok "1D"
  | some s =>
      if s = "1D" || s = "2D" || s = "1D2" then .ok s
      else .error (.invalidChoice s)

/-- `get_args`: validate the raw options and build the parsed configuration.
Type conversion of `--threads`, the choices check on `--readtype`, and the
required mutually exclusive group {--fastq, --summary, --bam} each abort
parsing with a usage error. -/
def get_args (r : RawArgs) : Except ArgError Args :=
  match parseThreads r.threads with
  | .error e => .error e
  | .ok threads =>
    match parseReadtype r.readtype with
    | .error e => .error e
    | .ok readtype =>
      if 2 ≤ countSupplied r then .error .mutuallyExclusive
      else if countSupplied r = 0 then .error .oneRequired
      else .ok { fastq := r.fastq, summary := r.summary, bam := r.bam,
                 outdir := r.outdir.getD ".",
                 prefixStr := r.prefixStr.getD "",
                 name := r.name.getD "",
                 threads := threads, readtype := readtype }

/-- A call into one of the three external nanoget loading routines, with the
arguments the dispatcher forwards.  `process_summary` structurally carries no
thread count: the code never forwards `args.threads` on that path. -/
inductive LoaderCall where
  | process_fastq_plain (path : String) (threads : Int)
  | process_bam (path : String) (threads : Int)
  | process_summary (path : String) (readtype : String)
deriving DecidableEq

/-- `get_input`: the Python-truthiness dispatch
`if args.fastq: ... elif args.bam: ... elif args.summary: ...`; when no branch
fires the Python function implicitly returns `None` (`none` here). -/
def get_input (args : Args) : Option LoaderCall :=
  if truthy args.fastq then
    some (.process_fastq_plain (args.fastq.getD "") args.threads)
  else if truthy args.bam then
    some (.process_bam (args.bam.getD "") args.threads)
  else if truthy args.summary then
    some (.process_summary (args.summary.getD "") args.readtype)
  else none

/-- Python `str.startswith` / `str.endswith`, via character lists. -/
def strStartsWith (s pre : String) : Bool :=
  pre.data.isPrefixOf s.data

/-- Whether `s` ends with the string `suf`. -/
def strEndsWith (s suf : String) : Bool :=
  suf.data.reverse.isPrefixOf s.data.reverse

/-- POSIX `os.path.join` on two components, as in `main`: an absolute second
component replaces the first; an empty or slash-terminated first component is
concatenated directly; otherwise a slash is inserted. -/
def osPathJoin (a b : String) : String :=
  if strStartsWith b "/" then b
  else if a = "" || strEndsWith a "/" then a ++ b
  else a ++ "/" ++ b

/-- Output destination resolution in `main`:
`args.name if args.name else os.path.join(args.outdir, args.prefix + "NanoStats.txt")`. -/
def resolveOutput (args : Args) : String :=
  if args.name ≠ "" then args.name
  else osPathJoin args.outdir (args.prefixStr ++ "NanoStats.txt")

/-- Filesystem abstraction: the set of directory paths that exist, as a list. -/
abbrev Fs := List String

/-- Split a character list on a separator character; like Python
`s.split(sep)`, the empty input yields one empty field. -/
def splitOnChar (sep : Char) : List Char → List (List Char)
  | [] => [[]]
  | c :: cs =>
      if c = sep then [] :: splitOnChar sep cs
      else
        match splitOnChar sep cs with
        | [] => [[c]]
        | h :: t => (c :: h) :: t

/-- Every leading segment of a slash-separated path, the path itself last;
`os.makedirs` creates all of these that are missing. -/
def pathAncestors (d : String) : List String :=
  let segs := splitOnChar '/' d.data
  (List.range segs.length).map
    (fun k => String.mk (List.intercalate ['/'] (segs.take (k + 1))))

/-- The directory set after `os.makedirs(d)` succeeds: `d` and all its
leading segments now exist. -/
def Fs.create (fs : Fs) (d : String) : Fs :=
  d :: pathAncestors d ++ fs

/-- `os.makedirs(d)` without `exist_ok`: raises `FileExistsError` when the
target already exists, otherwise creates it with all missing parents. -/
def osMakedirs (fs : Fs) (d : String) : Except Unit Fs :=
  if fs.contains d then .error () else .ok (fs.create d)

/-- Observable effects of a run, in order: directory creation, a call into an
external loading routine, and the final `write_stats(datadf, output)` call. -/
inductive Effect (δ : Type) where
  | makedirs (dir : String)
  | loadCall (c : LoaderCall)
  | writeStats (datadf : Option δ) (output : String)
deriving DecidableEq

/-- Failures that can terminate `main`: `os.makedirs` raising, or an external
loader raising (payload carried through unmodified). -/
inductive RunError (ε : Type) where
  | mkdirFailed
  | loadFailed (e : ε)
deriving DecidableEq

/-- State of a finished (or aborted) run of `main` after argument parsing:
the effect trace, the resulting filesystem, and the outcome. -/
structure RunState (δ ε : Type) where
  trace : List (Effect δ)
  fs : Fs
  result : Except (RunError ε) Unit

/-- The tail of `main` after the makedirs step: `datadf = get_input(args)`,
output resolution, and `write_stats`; the external loader `L` may fail, and
its failure aborts the run before any write. -/
def mainAfterMkdir {δ ε : Type} (fs1 : Fs) (tr1 : List (Effect δ))
    (L : LoaderCall → Except ε δ) (args : Args) : RunState δ ε :=
  match get_input args with
  | none =>
      { trace := tr1 ++ [.writeStats none (resolveOutput args)],
        fs := fs1, result := .ok () }
  | some c =>
      match L c with
      | .error e =>
          { trace := tr1 ++ [.loadCall c], fs := fs1,
            result := .error (.loadFailed e) }
      | .ok d =>
          { trace := tr1 ++ [.loadCall c, .writeStats (some d) (resolveOutput args)],
            fs := fs1, result := .ok () }

/-- `main` after `get_args` has succeeded:
`if not os.path.exists(args.outdir): os.makedirs(args.outdir)`, then the
loading/writing tail.  The makedirs error branch is kept in the model so its
unreachability can be proved. -/
def pymain {δ ε : Type} (fs : Fs) (L : LoaderCall → Except ε δ)
    (args : Args) : RunState δ ε :=
  if fs.contains args.outdir then
    mainAfterMkdir fs [] L args
  else
    match osMakedirs fs args.outdir with
    | .error _ => { trace := [], fs := fs, result := .error .mkdirFailed }
    | .ok fs1 => mainAfterMkdir fs1 [Effect.makedirs args.outdir] L args

/-- Whole-program outcome: argparse usage error (exit code 2), a run
failure propagated from `main`, or successful completion. -/
inductive ProgResult (ε : Type) where
  | usageError (err : ArgError) (code : Nat)
  | runError (e : RunError ε)
  | success
deriving DecidableEq

/-- Process exit code of an outcome. -/
def exitCode {ε : Type} : ProgResult ε → Nat
  | .usageError _ c => c
  | .runError _ => 1
  | .success => 0

/-- The whole program: `get_args` then `main`'s body.  A parse failure exits
with code 2 before any effect. -/
def program {δ ε : Type} (fs : Fs) (L : LoaderCall → Except ε δ)
    (r : RawArgs) : List (Effect δ) × ProgResult ε :=
  match get_args r with
  | .error err => ([], .usageError err 2)
  | .ok args =>
      let st := pymain fs L args
      (st.trace,
        match st.result with
        | .error e => .runError e
        | .ok _ => .success)

/-- Projection onto loader-call effects, for counting load attempts. -/
def isLoadCall {δ : Type} : Effect δ → Bool
  | .loadCall _ => true
  | _ => false

/-- The number of data-source fields populated in a parsed configuration. -/
def countSomeArgs (args : Args) : Nat :=
  (if args.fastq.isSome then 1 else 0) +
  (if args.summary.isSome then 1 else 0) +
  (if args.bam.isSome then 1 else 0)

lemma get_args_err_of_count (r : RawArgs) (h : countSupplied r ≠ 1) :
    ∃ err, get_args r = Except.error err := by
  unfold get_args
  cases hpt : parseThreads r.threads with
  | error e => exact ⟨e, rfl⟩
  | ok t =>
    cases hrt : parseReadtype r.readtype with
    | error e => exact ⟨e, rfl⟩
    | ok rt =>
      by_cases h2 : 2 ≤ countSupplied r
      · exact ⟨.mutuallyExclusive, by simp [h2]⟩
      · have h0 : countSupplied r = 0 := by omega
        exact ⟨.oneRequired, by simp [h2, h0]⟩

lemma get_args_ok_count (r : RawArgs) (args : Args)
    (h : get_args r = Except.ok args) : countSomeArgs args = 1 := by
  unfold get_args at h
  cases hpt : parseThreads r.threads with
  | error e => rw [hpt] at h; simp at h
  | ok t =>
    rw [hpt] at h
    cases hrt : parseReadtype r.readtype with
    | error e => rw [hrt] at h; simp at h
    | ok rt =>
      rw [hrt] at h
      by_cases h2 : 2 ≤ countSupplied r
      · simp [h2] at h
      · by_cases h0 : countSupplied r = 0
        · simp [h2, h0] at h
        · simp [h2, h0] at h
          have h1 : countSupplied r = 1 := by omega
          rw [← h]
          simpa [countSomeArgs, countSupplied] using h1

lemma mainAfterMkdir_fs {δ ε : Type} (fs1 : Fs) (tr1 : List (Effect δ))
    (L : LoaderCall → Except ε δ) (args : Args) :
    (mainAfterMkdir fs1 tr1 L args).fs = fs1 := by
  cases hgi : get_input args with
  | none => simp [mainAfterMkdir, hgi]
  | some c =>
    cases hL : L c with
    | error e => simp [mainAfterMkdir, hgi, hL]
    | ok d => simp [mainAfterMkdir, hgi, hL]

lemma mainAfterMkdir_result {δ ε : Type} (fs1 : Fs) (tr1 : List (Effect δ))
    (L : LoaderCall → Except ε δ) (args : Args) :
    (mainAfterMkdir fs1 tr1 L args).result ≠ Except.error RunError.mkdirFailed := by
  cases hgi : get_input args with
  | none => simp [mainAfterMkdir, hgi]
  | some c =>
    cases hL : L c with
    | error e => simp [mainAfterMkdir, hgi, hL]
    | ok d => simp [mainAfterMkdir, hgi, hL]

lemma mainAfterMkdir_trace {δ ε : Type} (fs1 : Fs) (tr1 : List (Effect δ))
    (L : LoaderCall → Except ε δ) (args : Args) :
    ∃ rest, (mainAfterMkdir fs1 tr1 L args).trace = tr1 ++ rest ∧
      ∀ d, Effect.makedirs d ∉ rest := by
  cases hgi : get_input args with
  | none =>
    exact ⟨[Effect.writeStats none (resolveOutput args)],
      by simp [mainAfterMkdir, hgi], by simp⟩
  | some c =>
    cases hL : L c with
    | error e =>
      exact ⟨[Effect.loadCall c], by simp [mainAfterMkdir, hgi, hL], by simp⟩
    | ok d =>
      exact ⟨[Effect.loadCall c, Effect.writeStats (some d) (resolveOutput args)],
        by simp [mainAfterMkdir, hgi, hL], by simp⟩

lemma pymain_contains_true {δ ε : Type} (fs : Fs) (L : LoaderCall → Except ε δ)
    (args : Args) (h : fs.contains args.outdir = true) :
    pymain fs L args = mainAfterMkdir fs [] L args := by
  have hm : args.outdir ∈ fs := by simpa using h
  simp [pymain, hm]

lemma pymain_contains_false {δ ε : Type} (fs : Fs) (L : LoaderCall → Except ε δ)
    (args : Args) (h : fs.contains args.outdir = false) :
    pymain fs L args
      = mainAfterMkdir (fs.create args.outdir) [Effect.makedirs args.outdir] L args := by
  have hm : args.outdir ∉ fs := by simpa using h
  simp [pymain, osMakedirs, hm]

lemma create_contains_self (fs : Fs) (d : String) :
    (fs.create d).contains d = true := by
  simp [Fs.create, List.contains_cons]

/-- A loader that always succeeds, used to instantiate run theorems. -/
def LW : LoaderCall → Except Unit Nat := fun _ => Except.ok 0

/-- Invocation supplying no data-source option. -/
def rawNoSource : RawArgs :=
  { fastq := none, summary := none, bam := none, outdir := none,
    prefixStr := none, name := none, threads := none, readtype := none }

/-- Invocation supplying two data-source options. -/
def rawTwoSources : RawArgs :=
  { fastq := some "a.fq", summary := none, bam := some "a.bam", outdir := none,
    prefixStr := none, name := none, threads := none, readtype := none }

/-- Invocation with an invalid `--readtype` value. -/
def rawBadReadtype : RawArgs :=
  { fastq := some "a.fq", summary := none, bam := none, outdir := none,
    prefixStr := none, name := none, threads := none, readtype := some "2d" }

/-- Invocation with a non-integer `--threads` value. -/
def rawBadThreads : RawArgs :=
  { fastq := some "a.fq", summary := none, bam := none, outdir := none,
    prefixStr := none, name := none, threads := some "four", readtype := none }

/-- Parsed configuration with the default name and outdir and prefix run1_. -/
def argsRun1 : Args :=
  { fastq := some "a.fq", summary := none, bam := none,
    outdir := ".", prefixStr := "run1_", name := "", threads := 4, readtype := "1D" }

/-- Parsed configuration naming the stdout sentinel explicitly. -/
def argsStdout : Args :=
  { fastq := some "a.fq", summary := none, bam := none,
    outdir := ".", prefixStr := "ignored_", name := "<stdout>", threads := 4,
    readtype := "1D" }

/-- Claim C1: supplying zero or more than one of the three data-source options
makes the program fail with a configuration error (argparse usage error, exit
code 2, hence non-zero) with an empty effect trace — no file is opened and no
loading routine is invoked. -/
theorem C1_exactly_one_source {δ ε : Type} (fs : Fs) (L : LoaderCall → Except ε δ)
    (r : RawArgs) (h : countSupplied r ≠ 1) :
    (∃ err, program fs L r = ([], ProgResult.usageError err 2)) ∧
    exitCode (program fs L r).2 ≠ 0 := by
  obtain ⟨err, herr⟩ := get_args_err_of_count r h
  exact ⟨⟨err, by simp [program, herr]⟩, by simp [program, herr, exitCode]⟩

theorem C1_exactly_one_source_witness :
    (countSupplied rawNoSource ≠ 1 ∧
      (∃ err, program ([] : Fs) LW rawNoSource = ([], ProgResult.usageError err 2)) ∧
      exitCode (program ([] : Fs) LW rawNoSource).2 ≠ 0) ∧
    (countSupplied rawTwoSources ≠ 1 ∧
      (∃ err, program ([] : Fs) LW rawTwoSources = ([], ProgResult.usageError err 2)) ∧
      exitCode (program ([] : Fs) LW rawTwoSources).2 ≠ 0) :=
  ⟨⟨by decide, (C1_exactly_one_source [] LW rawNoSource (by decide)).1,
      (C1_exactly_one_source [] LW rawNoSource (by decide)).2⟩,
    ⟨by decide, (C1_exactly_one_source [] LW rawTwoSources (by decide)).1,
      (C1_exactly_one_source [] LW rawTwoSources (by decide)).2⟩⟩

/-- Claim C4: with no explicit output name, the destination is
`os.path.join(outdir, prefix ++ "NanoStats.txt")`, the prefix concatenated
directly onto the fixed filename with no separator. -/
theorem C4_default_name_resolution (args : Args) (h : args.name = "") :
    resolveOutput args = osPathJoin args.outdir (args.prefixStr ++ "NanoStats.txt") := by
  simp [resolveOutput, h]

theorem C4_default_name_resolution_witness :
    argsRun1.name = "" ∧ resolveOutput argsRun1 = "./run1_NanoStats.txt" :=
  ⟨rfl, (C4_default_name_resolution argsRun1 rfl).trans (by decide)⟩

/-- Claim C5: a non-empty output name (the stdout sentinel included) is the
destination verbatim; outdir and prefix have no influence on it. -/
theorem C5_explicit_name_precedence (args : Args) (h : args.name ≠ "") :
    resolveOutput args = args.name ∧
    ∀ o p, resolveOutput { args with outdir := o, prefixStr := p } = args.name := by
  constructor
  · simp [resolveOutput, h]
  · intro o p
    simp [resolveOutput, h]

theorem C5_explicit_name_precedence_witness :
    argsStdout.name = "<stdout>" ∧ resolveOutput argsStdout = "<stdout>" ∧
    resolveOutput { argsStdout with outdir := "/data", prefixStr := "x_" } = "<stdout>" :=
  ⟨rfl, (C5_explicit_name_precedence argsStdout (by decide)).1,
    (C5_explicit_name_precedence argsStdout (by decide)).2 "/data" "x_"⟩

/-- Claim C7: an invalid `--readtype` value or a `--threads` value that does
not parse as a Python integer makes the program fail with a usage error (exit
code 2) and an empty effect trace — no loading routine is invoked. -/
theorem C7_invalid_option_values {δ ε : Type} (fs : Fs)
    (L : LoaderCall → Except ε δ) (r : RawArgs) (s : String)
    (h : (r.readtype = some s ∧ ¬(s = "1D" ∨ s = "2D" ∨ s = "1D2")) ∨
         (r.threads = some s ∧ pyIntParse s = none)) :
    (∃ err, program fs L r = ([], ProgResult.usageError err 2)) ∧
    exitCode (program fs L r).2 ≠ 0 := by
  have herr : ∃ err, get_args r = Except.error err := by
    rcases h with ⟨hrt, hbad⟩ | ⟨hth, hbad⟩
    · push_neg at hbad
      unfold get_args
      cases hpt : parseThreads r.threads with
      | error e => exact ⟨e, rfl⟩
      | ok t =>
        have hpr : parseReadtype r.readtype = Except.error (.invalidChoice s) := by
          rw [hrt]
          simp [parseReadtype, hbad.1, hbad.2.1, hbad.2.2]
        rw [hpr]
        exact ⟨ArgError.invalidChoice s, rfl⟩
    · have hpt : parseThreads r.threads = Except.error (.invalidIntValue s) := by
        rw [hth]
        simp [parseThreads, hbad]
      unfold get_args
      rw [hpt]
      exact ⟨ArgError.invalidIntValue s, rfl⟩
  obtain ⟨err, herr⟩ := herr
  exact ⟨⟨err, by simp [program, herr]⟩, by simp [program, herr, exitCode]⟩

theorem C7_invalid_option_values_witness :
    ((rawBadReadtype.readtype = some "2d" ∧
        ¬("2d" = "1D" ∨ "2d" = "2D" ∨ "2d" = "1D2")) ∧
      (∃ err, program ([] : Fs) LW rawBadReadtype = ([], ProgResult.usageError err 2)) ∧
      exitCode (program ([] : Fs) LW rawBadReadtype).2 ≠ 0) ∧
    ((rawBadThreads.threads = some "four" ∧ pyIntParse "four" = none) ∧
      (∃ err, program ([] : Fs) LW rawBadThreads = ([], ProgResult.usageError err 2)) ∧
      exitCode (program ([] : Fs) LW rawBadThreads).2 ≠ 0) :=
  ⟨⟨by decide,
      (C7_invalid_option_values [] LW rawBadReadtype "2d" (Or.inl (by decide))).1,
      (C7_invalid_option_values [] LW rawBadReadtype "2d" (Or.inl (by decide))).2⟩,
    ⟨by decide,
      (C7_invalid_option_values [] LW rawBadThreads "four" (Or.inr (by decide))).1,
      (C7_invalid_option_values [] LW rawBadThreads "four" (Or.inr (by decide))).2⟩⟩

/-- Invocation supplying exactly one data-source option, with an empty value:
`--fastq ""`. -/
def rawEmptyFastq : RawArgs :=
  { fastq := some "", summary := none, bam := none, outdir := none,
    prefixStr := none, name := none, threads := none, readtype := none }

/-- The configuration argparse produces for `--fastq ""`. -/
def argsEmptyFastq : Args :=
  { fastq := some "", summary := none, bam := none,
    outdir := ".", prefixStr := "", name := "", threads := 4, readtype := "1D" }

/-- Invocation supplying only `--bam x.bam`. -/
def rawBamOnly : RawArgs :=
  { fastq := none, summary := none, bam := some "x.bam", outdir := none,
    prefixStr := none, name := none, threads := none, readtype := none }

/-- The configuration argparse produces for `--bam x.bam`. -/
def argsBamOnly : Args :=
  { fastq := none, summary := none, bam := some "x.bam",
    outdir := ".", prefixStr := "", name := "", threads := 4, readtype := "1D" }

/-- Invocation supplying `--summary s.txt --readtype 2D`. -/
def rawSummary2D : RawArgs :=
  { fastq := none, summary := some "s.txt", bam := none, outdir := none,
    prefixStr := none, name := none, threads := none, readtype := some "2D" }

/-- The configuration argparse produces for `--summary s.txt --readtype 2D`. -/
def argsSummary2D : Args :=
  { fastq := none, summary := some "s.txt", bam := none,
    outdir := ".", prefixStr := "", name := "", threads := 4, readtype := "2D" }

/-- Claim C2 as stated is false at `--fastq ""`: exactly one data-source
option is supplied and argument parsing succeeds, yet the dispatcher's
truthiness tests all fail, so no loading branch executes and `get_input`
returns `None` instead of a loader's dataset. -/
theorem C2_dispatch_counterexample :
    get_args rawEmptyFastq = Except.ok argsEmptyFastq ∧
    countSupplied rawEmptyFastq = 1 ∧
    get_input argsEmptyFastq = none := by
  decide

/-- Claim C2, amended: for every configuration that passed argument parsing
and whose single supplied data-source value is non-empty, the dispatcher
executes exactly one loading branch — the one matching the supplied option —
and returns that loader's dataset. -/
theorem C2_dispatch_amended (r : RawArgs) (args : Args)
    (h : get_args r = Except.ok args)
    (hne : ∀ s, args.fastq = some s ∨ args.bam = some s ∨ args.summary = some s →
      s ≠ "") :
    (∃ c, get_input args = some c) ∧
    (∀ s, args.fastq = some s →
      get_input args = some (.process_fastq_plain s args.threads)) ∧
    (∀ s, args.bam = some s →
      get_input args = some (.process_bam s args.threads)) ∧
    (∀ s, args.summary = some s →
      get_input args = some (.process_summary s args.readtype)) := by
  have hc := get_args_ok_count r args h
  rcases hf : args.fastq with _ | sf <;>
    rcases hb : args.bam with _ | sb <;>
      rcases hs : args.summary with _ | ss <;>
        simp [countSomeArgs, hf, hb, hs] at hc
  · -- only the summary source is populated
    have hss : ss ≠ "" := hne ss (Or.inr (Or.inr hs))
    have hgi : get_input args = some (.process_summary ss args.readtype) := by
      simp [get_input, truthy, hf, hb, hs, hss]
    refine ⟨⟨_, hgi⟩, ?_, ?_, ?_⟩
    · intro s hx; simp at hx
    · intro s hx; simp at hx
    · intro s hx
      injection hx with hx
      subst hx
      exact hgi
  · -- only the bam source is populated
    have hsb : sb ≠ "" := hne sb (Or.inr (Or.inl hb))
    have hgi : get_input args = some (.process_bam sb args.threads) := by
      simp [get_input, truthy, hf, hb, hsb]
    refine ⟨⟨_, hgi⟩, ?_, ?_, ?_⟩
    · intro s hx; simp at hx
    · intro s hx
      injection hx with hx
      subst hx
      exact hgi
    · intro s hx; simp at hx
  · -- only the fastq source is populated
    have hsf : sf ≠ "" := hne sf (Or.inl hf)
    have hgi : get_input args = some (.process_fastq_plain sf args.threads) := by
      simp [get_input, truthy, hf, hsf]
    refine ⟨⟨_, hgi⟩, ?_, ?_, ?_⟩
    · intro s hx
      injection hx with hx
      subst hx
      exact hgi
    · intro s hx; simp at hx
    · intro s hx; simp at hx

theorem C2_dispatch_amended_witness :
    get_args rawBamOnly = Except.ok argsBamOnly ∧
    get_input argsBamOnly = some (.process_bam "x.bam" 4) :=
  ⟨by decide,
    (C2_dispatch_amended rawBamOnly argsBamOnly (by decide)
      (by intro s hx
          rcases hx with hx | hx | hx <;> simp [argsBamOnly] at hx
          subst hx; decide)).2.2.1 "x.bam" rfl⟩

/-- Claim C3: the dispatcher forwards (path, thread count) to the FASTQ
loader, (path, thread count) to the alignment loader, and (path, read type)
to the summary loader; the thread count is not forwarded on the summary path
(the summary call is the same for every thread count).  "Set" is the code's
Python truthiness test: supplied with a non-empty value. -/
theorem C3_parameter_forwarding (r : RawArgs) (args : Args)
    (h : get_args r = Except.ok args) :
    (∀ s, args.fastq = some s → s ≠ "" →
      get_input args = some (.process_fastq_plain s args.threads)) ∧
    (∀ s, args.bam = some s → s ≠ "" →
      get_input args = some (.process_bam s args.threads)) ∧
    (∀ s, args.summary = some s → s ≠ "" →
      get_input args = some (.process_summary s args.readtype) ∧
      ∀ t : Int, get_input { args with threads := t }
        = some (.process_summary s args.readtype)) := by
  have hc := get_args_ok_count r args h
  rcases hf : args.fastq with _ | sf <;>
    rcases hb : args.bam with _ | sb <;>
      rcases hs : args.summary with _ | ss <;>
        simp [countSomeArgs, hf, hb, hs] at hc
  · -- only the summary source is populated
    refine ⟨?_, ?_, ?_⟩
    · intro s hx; simp at hx
    · intro s hx; simp at hx
    · intro s hx hsne
      injection hx with hx
      subst hx
      constructor
      · simp [get_input, truthy, hf, hb, hs, hsne]
      · intro t
        simp [get_input, truthy, hsne]
  · -- only the bam source is populated
    refine ⟨?_, ?_, ?_⟩
    · intro s hx; simp at hx
    · intro s hx hsne
      injection hx with hx
      subst hx
      simp [get_input, truthy, hf, hb, hsne]
    · intro s hx; simp at hx
  · -- only the fastq source is populated
    refine ⟨?_, ?_, ?_⟩
    · intro s hx hsne
      injection hx with hx
      subst hx
      simp [get_input, truthy, hf, hsne]
    · intro s hx; simp at hx
    · intro s hx; simp at hx

theorem C3_parameter_forwarding_witness :
    get_args rawSummary2D = Except.ok argsSummary2D ∧
    get_input argsSummary2D = some (.process_summary "s.txt" "2D") ∧
    get_input { argsSummary2D with threads := 99 }
      = some (.process_summary "s.txt" "2D") := by
  refine ⟨by decide, ?_, ?_⟩
  · exact ((C3_parameter_forwarding rawSummary2D argsSummary2D
      (by decide)).2.2 "s.txt" rfl (by decide)).1
  · exact ((C3_parameter_forwarding rawSummary2D argsSummary2D
      (by decide)).2.2 "s.txt" rfl (by decide)).2 99

lemma contains_of_mem {p : String} {l : List String} (h : p ∈ l) :
    l.contains p = true := by
  simpa using h

lemma pymain_noMkdir_of_contains {δ ε : Type} (fs : Fs)
    (L : LoaderCall → Except ε δ) (args : Args)
    (h : fs.contains args.outdir = true) :
    (pymain fs L args).result ≠ Except.error RunError.mkdirFailed ∧
    ∀ d, Effect.makedirs d ∉ (pymain fs L args).trace := by
  rw [pymain_contains_true fs L args h]
  obtain ⟨rest, htr, hnm⟩ := mainAfterMkdir_trace fs [] L args
  refine ⟨mainAfterMkdir_result fs [] L args, fun d => ?_⟩
  rw [htr]
  simpa using hnm d

lemma pymain_fs_eq {δ ε : Type} (fs : Fs) (L : LoaderCall → Except ε δ)
    (args : Args) :
    (pymain fs L args).fs
      = if fs.contains args.outdir then fs else fs.create args.outdir := by
  cases hcon : fs.contains args.outdir with
  | true =>
    rw [pymain_contains_true fs L args hcon, mainAfterMkdir_fs]
    simp [hcon]
  | false =>
    rw [pymain_contains_false fs L args hcon, mainAfterMkdir_fs]
    simp [hcon]

/-- Loader-call argument for the C6 witness run. -/
def argsC6 : Args :=
  { fastq := some "a.fq", summary := none, bam := none,
    outdir := "out/sub", prefixStr := "", name := "", threads := 4,
    readtype := "1D" }

/-- Claim C6: a missing output directory is created (with its parent
segments) as the first effect of the run, before anything else; the creation
is guarded by the existence test, so the `FileExistsError` path of
`os.makedirs` is unreachable and a run never fails with it; a second run on
the resulting filesystem performs no directory creation and cannot fail with
it either. -/
theorem C6_outdir_creation {δ ε : Type} (fs : Fs) (L : LoaderCall → Except ε δ)
    (args : Args) :
    (pymain fs L args).result ≠ Except.error RunError.mkdirFailed ∧
    (pymain fs L args).fs.contains args.outdir = true ∧
    (fs.contains args.outdir = false →
      (∀ p ∈ pathAncestors args.outdir, (pymain fs L args).fs.contains p = true) ∧
      ∃ rest, (pymain fs L args).trace = Effect.makedirs args.outdir :: rest ∧
        ∀ d, Effect.makedirs d ∉ rest) ∧
    (fs.contains args.outdir = true →
      ∀ d, Effect.makedirs d ∉ (pymain fs L args).trace) ∧
    ((pymain ((pymain fs L args).fs) L args).result
        ≠ Except.error RunError.mkdirFailed ∧
      ∀ d, Effect.makedirs d ∉ (pymain ((pymain fs L args).fs) L args).trace) := by
  cases hcon : fs.contains args.outdir with
  | true =>
    have hfs : (pymain fs L args).fs = fs := by
      rw [pymain_contains_true fs L args hcon]
      exact mainAfterMkdir_fs fs [] L args
    refine ⟨(pymain_noMkdir_of_contains fs L args hcon).1, ?_, ?_, ?_, ?_⟩
    · rw [hfs]; exact hcon
    · intro h'; simp at h'
    · intro _; exact (pymain_noMkdir_of_contains fs L args hcon).2
    · rw [hfs]; exact pymain_noMkdir_of_contains fs L args hcon
  | false =>
    have heq := pymain_contains_false fs L args hcon
    have hfs : (pymain fs L args).fs = fs.create args.outdir := by
      rw [heq]; exact mainAfterMkdir_fs _ _ L args
    obtain ⟨rest, htr, hnm⟩ :=
      mainAfterMkdir_trace (fs.create args.outdir) [Effect.makedirs args.outdir]
        L args
    refine ⟨?_, ?_, ?_, ?_, ?_⟩
    · rw [heq]; exact mainAfterMkdir_result _ _ L args
    · rw [hfs]; exact create_contains_self fs args.outdir
    · intro _
      refine ⟨?_, rest, ?_, hnm⟩
      · intro p hp
        rw [hfs]
        exact contains_of_mem
          (List.mem_cons_of_mem _ (List.mem_append_left fs hp))
      · rw [heq]
        simpa using htr
    · intro h'; simp at h'
    · rw [hfs]
      exact pymain_noMkdir_of_contains (fs.create args.outdir) L args
        (create_contains_self fs args.outdir)

theorem C6_outdir_creation_witness :
    ([] : Fs).contains argsC6.outdir = false ∧
    (pymain ([] : Fs) LW argsC6).result ≠ Except.error RunError.mkdirFailed ∧
    (∀ p ∈ pathAncestors argsC6.outdir,
      (pymain ([] : Fs) LW argsC6).fs.contains p = true) ∧
    (∃ rest, (pymain ([] : Fs) LW argsC6).trace
        = Effect.makedirs argsC6.outdir :: rest ∧ ∀ d, Effect.makedirs d ∉ rest) ∧
    (pymain ((pymain ([] : Fs) LW argsC6).fs) LW argsC6).result
      ≠ Except.error RunError.mkdirFailed :=
  ⟨by decide, (C6_outdir_creation [] LW argsC6).1,
    ((C6_outdir_creation [] LW argsC6).2.2.1 (by decide)).1,
    ((C6_outdir_creation [] LW argsC6).2.2.1 (by decide)).2,
    (C6_outdir_creation [] LW argsC6).2.2.2.2.1⟩

/-- A loader that always fails, for the C9 witness run. -/
def LF : LoaderCall → Except String Nat := fun _ => Except.error "truncated file"

/-- Parsed configuration for the C9 witness run. -/
def argsC9 : Args :=
  { fastq := none, summary := none, bam := some "b.bam",
    outdir := ".", prefixStr := "", name := "", threads := 2, readtype := "1D" }

/-- Claim C9: a failure raised by the external loading routine propagates
unmodified (the very same error payload) to the process boundary; no
recovery, retry, or transformation happens — the run makes exactly one load
attempt and writes no report. -/
theorem C9_error_propagation {δ ε : Type} (fs : Fs)
    (L : LoaderCall → Except ε δ) (args : Args) (c : LoaderCall) (e : ε)
    (hc : get_input args = some c) (hL : L c = Except.error e) :
    (pymain fs L args).result = Except.error (RunError.loadFailed e) ∧
    (∀ d out, Effect.writeStats d out ∉ (pymain fs L args).trace) ∧
    (pymain fs L args).trace.filter isLoadCall = [Effect.loadCall c] := by
  have hafter : ∀ (fs1 : Fs) (tr1 : List (Effect δ)),
      mainAfterMkdir fs1 tr1 L args
        = { trace := tr1 ++ [Effect.loadCall c], fs := fs1,
            result := Except.error (RunError.loadFailed e) } := by
    intro fs1 tr1
    simp [mainAfterMkdir, hc, hL]
  cases hcon : fs.contains args.outdir with
  | true =>
    rw [pymain_contains_true fs L args hcon, hafter]
    refine ⟨rfl, ?_, ?_⟩
    · intro d out; simp
    · simp [isLoadCall]
  | false =>
    rw [pymain_contains_false fs L args hcon, hafter]
    refine ⟨rfl, ?_, ?_⟩
    · intro d out; simp
    · simp [isLoadCall]

theorem C9_error_propagation_witness :
    get_input argsC9 = some (.process_bam "b.bam" 2) ∧
    (pymain ([] : Fs) LF argsC9).result
      = Except.error (RunError.loadFailed "truncated file") ∧
    (pymain ([] : Fs) LF argsC9).trace.filter isLoadCall
      = [Effect.loadCall (.process_bam "b.bam" 2)] :=
  ⟨by decide,
    (C9_error_propagation [] LF argsC9 (.process_bam "b.bam" 2)
      "truncated file" (by decide) rfl).1,
    (C9_error_propagation [] LF argsC9 (.process_bam "b.bam" 2)
      "truncated file" (by decide) rfl).2.2⟩

/-- Invocation for the C10 witness: summary source, explicit stdout name. -/
def rawC10 : RawArgs :=
  { fastq := none, summary := some "s.txt", bam := none,
    outdir := some "results", prefixStr := none, name := some "<stdout>",
    threads := none, readtype := none }

/-- The configuration argparse produces for the C10 witness invocation. -/
def argsC10 : Args :=
  { fastq := none, summary := some "s.txt", bam := none,
    outdir := "results", prefixStr := "", name := "<stdout>", threads := 4,
    readtype := "1D" }

/-- Claim C10: for every parsed invocation, creation of the missing output
directory is the sole filesystem mutation, happens first — before the
dataset is loaded — and is independent of the chosen output destination
(the resulting filesystem is the same for every output name). -/
theorem C10_unconditional_creation {δ ε : Type} (r : RawArgs) (args : Args)
    (fs : Fs) (L : LoaderCall → Except ε δ) (h : get_args r = Except.ok args) :
    ((pymain fs L args).fs
        = if fs.contains args.outdir then fs else fs.create args.outdir) ∧
    (∀ n, (pymain fs L { args with name := n }).fs = (pymain fs L args).fs) ∧
    (∀ x ∈ (pymain fs L args).trace, ∀ d, x = Effect.makedirs d →
      d = args.outdir) ∧
    (fs.contains args.outdir = false →
      ∃ rest, (pymain fs L args).trace = Effect.makedirs args.outdir :: rest) := by
  refine ⟨pymain_fs_eq fs L args, ?_, ?_, ?_⟩
  · intro n
    rw [pymain_fs_eq, pymain_fs_eq]
  · cases hcon : fs.contains args.outdir with
    | true =>
      obtain ⟨rest, htr, hnm⟩ := mainAfterMkdir_trace fs [] L args
      intro x hx d hxd
      rw [pymain_contains_true fs L args hcon, htr] at hx
      simp at hx
      subst hxd
      exact absurd hx (hnm d)
    | false =>
      obtain ⟨rest, htr, hnm⟩ :=
        mainAfterMkdir_trace (fs.create args.outdir)
          [Effect.makedirs args.outdir] L args
      intro x hx d hxd
      rw [pymain_contains_false fs L args hcon, htr] at hx
      simp at hx
      rcases hx with hx | hx
      · subst hxd
        injection hx.symm with hx
        exact hx.symm
      · subst hxd
        exact absurd hx (hnm d)
  · intro hcon
    obtain ⟨rest, htr, hnm⟩ :=
      mainAfterMkdir_trace (fs.create args.outdir)
        [Effect.makedirs args.outdir] L args
    refine ⟨rest, ?_⟩
    rw [pymain_contains_false fs L args hcon]
    simpa using htr

theorem C10_unconditional_creation_witness :
    get_args rawC10 = Except.ok argsC10 ∧
    ((pymain ([] : Fs) LW argsC10).fs
        = if ([] : Fs).contains argsC10.outdir then ([] : Fs)
          else Fs.create [] argsC10.outdir) ∧
    (∀ n, (pymain ([] : Fs) LW { argsC10 with name := n }).fs
        = (pymain ([] : Fs) LW argsC10).fs) ∧
    (∃ rest, (pymain ([] : Fs) LW argsC10).trace
        = Effect.makedirs argsC10.outdir :: rest) :=
  ⟨by decide,
    (C10_unconditional_creation rawC10 argsC10 [] LW (by decide)).1,
    (C10_unconditional_creation rawC10 argsC10 [] LW (by decide)).2.1,
    (C10_unconditional_creation rawC10 argsC10 [] LW (by decide)).2.2.2
      (by decide)⟩

/-- Relational view of a complete run producing a report: the loaders and
the report writer are arbitrary relations (possibly non-deterministic); a
report is produced through the single dispatched loader call, or directly
from the null dataset when no branch fires. -/
inductive ProducesReport {δ ρ : Type} (L : LoaderCall → δ → Prop)
    (W : Option δ → String → ρ → Prop) (args : Args) : ρ → Prop where
  | viaLoader (c : LoaderCall) (d : δ) (rep : ρ)
      (hc : get_input args = some c) (hL : L c d)
      (hW : W (some d) (resolveOutput args) rep) :
      ProducesReport L W args rep
  | withoutLoader (rep : ρ) (hc : get_input args = none)
      (hW : W none (resolveOutput args) rep) :
      ProducesReport L W args rep

/-- Claim C8: when the external loading and report-writing routines are
deterministic functions of their arguments, two runs of the program with the
same configuration produce the same report. -/
theorem C8_determinism {δ ρ : Type} (L : LoaderCall → δ → Prop)
    (W : Option δ → String → ρ → Prop) (args : Args) (r1 r2 : ρ)
    (hLdet : ∀ c d1 d2, L c d1 → L c d2 → d1 = d2)
    (hWdet : ∀ x out q1 q2, W x out q1 → W x out q2 → q1 = q2)
    (h1 : ProducesReport L W args r1) (h2 : ProducesReport L W args r2) :
    r1 = r2 := by
  cases h1 with
  | viaLoader c1 d1 rep1 hc1 hL1 hW1 =>
    cases h2 with
    | viaLoader c2 d2 rep2 hc2 hL2 hW2 =>
      rw [hc1] at hc2
      injection hc2 with hcc
      subst hcc
      have hd : d1 = d2 := hLdet c1 d1 d2 hL1 hL2
      subst hd
      exact hWdet _ _ _ _ hW1 hW2
    | withoutLoader rep2 hc2 hW2 =>
      rw [hc1] at hc2
      simp at hc2
  | withoutLoader rep1 hc1 hW1 =>
    cases h2 with
    | viaLoader c2 d2 rep2 hc2 hL2 hW2 =>
      rw [hc1] at hc2
      simp at hc2
    | withoutLoader rep2 hc2 hW2 =>
      exact hWdet _ _ _ _ hW1 hW2

/-- Parsed configuration for the C8 witness. -/
def argsC8 : Args :=
  { fastq := some "w.fq", summary := none, bam := none,
    outdir := ".", prefixStr := "", name := "", threads := 4, readtype := "1D" }

/-- Deterministic loader relation for the C8 witness. -/
def L8 : LoaderCall → Nat → Prop := fun _ d => d = 3

/-- Deterministic writer relation for the C8 witness. -/
def W8 : Option Nat → String → Nat → Prop := fun _ _ rep => rep = 9

theorem C8_determinism_witness :
    (∀ c d1 d2, L8 c d1 → L8 c d2 → d1 = d2) ∧ (9 : Nat) = 9 :=
  ⟨fun _ _ _ ha hb => ha.trans hb.symm,
    C8_determinism L8 W8 argsC8 9 9
      (fun _ _ _ ha hb => ha.trans hb.symm)
      (fun _ _ _ _ ha hb => ha.trans hb.symm)
      (ProducesReport.viaLoader (.process_fastq_plain "w.fq" 4) 3 9
        (by decide) rfl rfl)
      (ProducesReport.viaLoader (.process_fastq_plain "w.fq" 4) 3 9
        (by decide) rfl rfl)⟩

end NanoStat
